import Mathlib

/-!
Verification of the dashboard-generator core decision logic.

This file gives a shallow embedding, in Lean 4, of the pure decision
logic of the dashboard generator:

* `allocate_slots` embeds `_allocate_slots` from
  `src/modules/univariate_plots.py` (the univariate slot allocator with
  default caps 5/4 and budget `MAX_UNIVARIATE_PLOTS = 9`);
* `auto_detect_type` and `detect_schema` embed the corresponding
  functions of `src/modules/schema_detector.py`, over an abstract model
  of a pandas column (dtype kind, unique count, datetime-parse result);
* `compute_eta_squared`, `rank_scatter_pairs`, `rank_grouped_bar_pairs`
  and `generate_bivariate_plots` embed the corresponding functions of
  `src/modules/bivariate_plots.py`; numeric cell values are modelled as
  rationals, missing values as `Option.none`, and the correlation
  matrix as an oracle `Nat → Nat → Option ℚ` (`none` = NaN entry),
  matching how the ranking code consumes it.

Chart rendering (matplotlib calls) is side effect code outside the
verified core; a produced plot is modelled by its kind tag and the
column names it draws, mirroring the `PlotResult` metadata fields.
-/

namespace Dashboard

/-! ## Constants (src/modules/constants.py) -/

def MAX_UNIQUE_FOR_CATEGORICAL : Nat := 20

def MAX_UNIVARIATE_PLOTS : Nat := 9

def MAX_BIVARIATE_PLOTS : Nat := 9

def MIN_CORRELATION_THRESHOLD : ℚ := 3 / 10

/-! ## Univariate slot allocator (src/modules/univariate_plots.py) -/

/-- Default slot split: up to 5 numerical, 4 categorical. -/
def DEFAULT_NUM_SLOTS : Nat := 5

def DEFAULT_CAT_SLOTS : Nat := 4

/-- Embedding of `_allocate_slots(n_num, n_cat)`: divide the total plot
budget between numerical and categorical columns.  The inputs are list
lengths, hence natural numbers. -/
def allocate_slots (n_num n_cat : Nat) : Nat × Nat :=
  let num_slots := min n_num DEFAULT_NUM_SLOTS
  let cat_slots := min n_cat DEFAULT_CAT_SLOTS
  let num_surplus := DEFAULT_NUM_SLOTS - num_slots
  let cat_surplus := DEFAULT_CAT_SLOTS - cat_slots
  let num_slots := min n_num (num_slots + cat_surplus)
  let cat_slots := min n_cat (cat_slots + num_surplus)
  let total := num_slots + cat_slots
  if MAX_UNIVARIATE_PLOTS < total then
    (num_slots, MAX_UNIVARIATE_PLOTS - num_slots)
  else
    (num_slots, cat_slots)

/-- Claim C1: with default caps (5, 4) and total budget 9, available
numerical/categorical counts (2, 10) are granted exactly (2, 7): the
numerical pool's 3 unused slots are donated to the categorical pool. -/
theorem allocate_slots_two_ten : allocate_slots 2 10 = (2, 7) := by decide

/-- Claim C2 counterexample: at availabilities (9, 0) the numerical pool
is granted 9 slots, exceeding `min` of its default cap 5 and its
availability 9 — so the grant is not bounded by the default cap. -/
theorem allocate_slots_cap_counterexample :
    (allocate_slots 9 0).1 = 9 ∧ ¬ (allocate_slots 9 0).1 ≤ min DEFAULT_NUM_SLOTS 9 := by
  decide

/-- Claim C2 (amended): each pool's grant never exceeds that pool's
availability; the default caps bound only the pre-donation grants, and
after donation a pool's grant may grow beyond its cap. -/
theorem allocate_slots_le_available (n_num n_cat : Nat) :
    (allocate_slots n_num n_cat).1 ≤ n_num ∧ (allocate_slots n_num n_cat).2 ≤ n_cat := by
  simp only [allocate_slots, DEFAULT_NUM_SLOTS, DEFAULT_CAT_SLOTS, MAX_UNIVARIATE_PLOTS]
  split <;> constructor <;> omega

/-- Claim C3: for all availabilities, the two grants sum to at most the
total budget `MAX_UNIVARIATE_PLOTS = 9`, including after donation. -/
theorem allocate_slots_budget (n_num n_cat : Nat) :
    (allocate_slots n_num n_cat).1 + (allocate_slots n_num n_cat).2 ≤ MAX_UNIVARIATE_PLOTS := by
  simp only [allocate_slots, DEFAULT_NUM_SLOTS, DEFAULT_CAT_SLOTS, MAX_UNIVARIATE_PLOTS]
  split <;> omega

/-! ## Schema detection (src/modules/schema_detector.py) -/

/-- The pandas dtype facts `_auto_detect_type` branches on:
`is_bool_dtype`, `is_numeric_dtype`, `is_datetime64_any_dtype`,
`dtype == object`, or anything else (e.g. category dtype). -/
inductive Dtype where
  | bool
  | numeric
  | datetime64
  | obj
  | other
deriving DecidableEq, Repr

/-- Abstract model of a pandas Series: its dtype kind, its
`nunique()` count, and whether `pd.to_datetime` succeeds on the first
50 non-null entries (only consulted for object dtype). -/
structure Series where
  dtype : Dtype
  n_unique : Nat
  head_parses_as_datetime : Bool
deriving DecidableEq, Repr

/-- A named DataFrame column. -/
structure Column where
  name : String
  series : Series
deriving DecidableEq, Repr

/-- A loaded DataFrame, at the granularity the schema detector reads. -/
structure DataFrame where
  n_rows : Nat
  cols : List Column
deriving DecidableEq, Repr

/-- Embedding of `UserColumnInfo` (src/modules/schema_parser.py). -/
structure UserColumnInfo where
  name : String
  declared_type : String
  description : String := ""
deriving DecidableEq, Repr

/-- Embedding of `_auto_detect_type(series, n_unique)`: heuristically
classify a column as numerical, categorical, or datetime. -/
def auto_detect_type (series : Series) (n_unique : Nat) : String :=
  if series.dtype = Dtype.bool then "categorical"
  else if series.dtype = Dtype.numeric then
    if MAX_UNIQUE_FOR_CATEGORICAL < n_unique then "numerical" else "categorical"
  else if series.dtype = Dtype.datetime64 then "datetime"
  else if series.dtype = Dtype.obj ∧ series.head_parses_as_datetime then "datetime"
  else "categorical"

/-- Embedding of the `user_lookup` dict of `detect_schema`: built by
inserting each user column in order, so the last entry with a given
name wins. -/
def user_lookup (user_schema : List UserColumnInfo) (name : String) :
    Option (String × String) :=
  (user_schema.reverse.find? fun ci => ci.name = name).map
    fun ci => (ci.declared_type, ci.description)

/-- The `semantic_type` chosen for one column in `detect_schema`'s loop:
the user-declared type when the column is covered by a declaration,
otherwise the auto-detected type. -/
def semantic_type_of (user_schema : List UserColumnInfo) (c : Column) : String :=
  match user_lookup user_schema c.name with
  | some (t, _) => t
  | none => auto_detect_type c.series c.series.n_unique

/-- The loop of `detect_schema`: walk the columns in order and append
each name to the numerical, datetime, or categorical list according to
its semantic type (any type other than "numerical"/"datetime" falls to
the categorical `else` branch). -/
def classify_columns (user_schema : List UserColumnInfo) :
    List Column → List String × List String × List String
  | [] => ([], [], [])
  | c :: rest =>
    let prev := classify_columns user_schema rest
    let t := semantic_type_of user_schema c
    if t = "numerical" then (c.name :: prev.1, prev.2.1, prev.2.2)
    else if t = "datetime" then (prev.1, prev.2.1, c.name :: prev.2.2)
    else (prev.1, c.name :: prev.2.1, prev.2.2)

/-- Embedding of `SchemaInfo`, at the granularity the claims read. -/
structure SchemaInfo where
  n_rows : Nat
  n_cols : Nat
  numerical_cols : List String
  categorical_cols : List String
  datetime_cols : List String
deriving DecidableEq, Repr

/-- Embedding of `detect_schema(df, user_schema)`. -/
def detect_schema (df : DataFrame) (user_schema : List UserColumnInfo) : SchemaInfo :=
  let lists := classify_columns user_schema df.cols
  { n_rows := df.n_rows
    n_cols := df.cols.length
    numerical_cols := lists.1
    categorical_cols := lists.2.1
    datetime_cols := lists.2.2 }

theorem classify_columns_perm (user_schema : List UserColumnInfo) (cols : List Column) :
    ((classify_columns user_schema cols).1 ++ (classify_columns user_schema cols).2.1 ++
        (classify_columns user_schema cols).2.2).Perm (cols.map Column.name) := by
  induction cols with
  | nil => simp [classify_columns]
  | cons c rest ih =>
    simp only [classify_columns, List.map_cons]
    split
    · simpa using List.Perm.cons c.name ih
    · split
      · exact List.perm_middle.trans (List.Perm.cons c.name ih)
      · have e : (classify_columns user_schema rest).1 ++
            (c.name :: (classify_columns user_schema rest).2.1) ++
            (classify_columns user_schema rest).2.2 =
            (classify_columns user_schema rest).1 ++
              c.name :: ((classify_columns user_schema rest).2.1 ++
                (classify_columns user_schema rest).2.2) := by
          simp
        rw [e]
        refine List.perm_middle.trans ?_
        rw [← List.append_assoc]
        exact List.Perm.cons c.name ih

/-- Claim C4: for every dataset (with its pandas-distinct column names)
and every optional user schema, the three lists of the returned
`SchemaInfo` form a partition of the column set: their concatenation is
a permutation of the column-name list and contains no duplicates, so
every column name appears in exactly one of the three lists and their
union is the dataset's column set. -/
theorem detect_schema_partition (df : DataFrame) (user_schema : List UserColumnInfo)
    (h : (df.cols.map Column.name).Nodup) :
    ((detect_schema df user_schema).numerical_cols ++
        (detect_schema df user_schema).categorical_cols ++
        (detect_schema df user_schema).datetime_cols).Perm (df.cols.map Column.name) ∧
      ((detect_schema df user_schema).numerical_cols ++
        (detect_schema df user_schema).categorical_cols ++
        (detect_schema df user_schema).datetime_cols).Nodup := by
  refine ⟨classify_columns_perm user_schema df.cols, ?_⟩
  exact (classify_columns_perm user_schema df.cols).symm.nodup h

/-- Claim C4 witness: a concrete two-column dataset, classified with no
user schema, satisfies the partition property. -/
theorem detect_schema_partition_witness :
    (((⟨2, [⟨"a", ⟨Dtype.numeric, 25, false⟩⟩, ⟨"b", ⟨Dtype.bool, 2, false⟩⟩]⟩ :
        DataFrame).cols.map Column.name).Nodup) ∧
      (((detect_schema ⟨2, [⟨"a", ⟨Dtype.numeric, 25, false⟩⟩,
          ⟨"b", ⟨Dtype.bool, 2, false⟩⟩]⟩ []).numerical_cols ++
        (detect_schema ⟨2, [⟨"a", ⟨Dtype.numeric, 25, false⟩⟩,
          ⟨"b", ⟨Dtype.bool, 2, false⟩⟩]⟩ []).categorical_cols ++
        (detect_schema ⟨2, [⟨"a", ⟨Dtype.numeric, 25, false⟩⟩,
          ⟨"b", ⟨Dtype.bool, 2, false⟩⟩]⟩ []).datetime_cols).Perm
        ((⟨2, [⟨"a", ⟨Dtype.numeric, 25, false⟩⟩, ⟨"b", ⟨Dtype.bool, 2, false⟩⟩]⟩ :
          DataFrame).cols.map Column.name)) :=
  ⟨by decide, (detect_schema_partition _ [] (by decide)).1⟩

/-- Claim C5: for a column not covered by a user declaration, a
boolean-dtype column is always classified categorical, and a
numeric-dtype column is classified numerical exactly when its
unique-value count exceeds `MAX_UNIQUE_FOR_CATEGORICAL = 20`
(otherwise it is classified categorical). -/
theorem auto_detect_bool_and_numeric (s : Series) (n : Nat) :
    (s.dtype = Dtype.bool → auto_detect_type s n = "categorical") ∧
      (s.dtype = Dtype.numeric →
        ((auto_detect_type s n = "numerical" ↔ MAX_UNIQUE_FOR_CATEGORICAL < n) ∧
          (¬ MAX_UNIQUE_FOR_CATEGORICAL < n → auto_detect_type s n = "categorical"))) := by
  constructor
  · intro h
    simp [auto_detect_type, h]
  · intro h
    have hb : s.dtype ≠ Dtype.bool := by rw [h]; intro hc; cases hc
    constructor
    · constructor
      · intro he
        by_contra hn
        simp [auto_detect_type, hb, h, hn] at he
      · intro hn
        simp [auto_detect_type, hb, h, hn]
    · intro hn
      simp [auto_detect_type, hb, h, hn]

/-- Claim C5 witness: boundary instances — a boolean series with 21
uniques is categorical; a numeric series with exactly 20 uniques is
categorical and with exactly 21 uniques is numerical. -/
theorem auto_detect_bool_and_numeric_witness :
    auto_detect_type ⟨Dtype.bool, 21, false⟩ 21 = "categorical" ∧
      auto_detect_type ⟨Dtype.numeric, 20, false⟩ 20 = "categorical" ∧
      auto_detect_type ⟨Dtype.numeric, 21, false⟩ 21 = "numerical" :=
  ⟨(auto_detect_bool_and_numeric ⟨Dtype.bool, 21, false⟩ 21).1 rfl,
    ((auto_detect_bool_and_numeric ⟨Dtype.numeric, 20, false⟩ 20).2 rfl).2 (by decide),
    ((auto_detect_bool_and_numeric ⟨Dtype.numeric, 21, false⟩ 21).2 rfl).1.mpr (by decide)⟩

/-! ## Eta-squared (src/modules/bivariate_plots.py, `_compute_eta_squared`)

A categorical/numerical column pair is modelled by its rows: each row
holds an optional group key (the categorical cell) and an optional
rational (the numerical cell); `none` models a null. -/

/-- Embedding of `df[[cat_col, num_col]].dropna()`: keep the rows where
both cells are non-null. -/
def dropna {α : Type} (rows : List (Option α × Option ℚ)) : List (α × ℚ) :=
  rows.filterMap fun r =>
    match r with
    | (some c, some x) => some (c, x)
    | _ => none

/-- Embedding of `subset.groupby(cat_col)`: one list of numerical
values per distinct key, in first-occurrence key order (pandas sorts
the keys instead, which changes nothing any caller observes: only the
collection of groups is consumed). -/
def group_values {α : Type} [DecidableEq α] (subset : List (α × ℚ)) : List (List ℚ) :=
  ((subset.map Prod.fst).dedup).map fun k =>
    (subset.filter fun p => p.1 = k).map Prod.snd

/-- Embedding of `[g for g in groups if len(g) > 0]`. -/
def nonempty_groups {α : Type} [DecidableEq α] (subset : List (α × ℚ)) : List (List ℚ) :=
  (group_values subset).filter fun g => 0 < g.length

/-- Embedding of `np.mean` / `Series.mean` on a list of values. -/
def list_mean (l : List ℚ) : ℚ := l.sum / l.length

/-- Embedding of `ss_total = np.sum((subset[num_col] - grand_mean) ** 2)`. -/
def ss_total_from (nums : List ℚ) (grand_mean : ℚ) : ℚ :=
  (nums.map fun x => (x - grand_mean) ^ 2).sum

/-- Embedding of
`ss_between = sum(len(g) * (np.mean(g) - grand_mean) ** 2 for g in groups)`. -/
def ss_between_from (groups : List (List ℚ)) (grand_mean : ℚ) : ℚ :=
  (groups.map fun g => (g.length : ℚ) * (list_mean g - grand_mean) ^ 2).sum

/-- Embedding of `_compute_eta_squared(df, cat_col, num_col)`, taking
the pair's rows directly. -/
def compute_eta_squared {α : Type} [DecidableEq α]
    (rows : List (Option α × Option ℚ)) : Option ℚ :=
  let subset := dropna rows
  if subset.isEmpty then none
  else
    let groups := nonempty_groups subset
    if groups.length < 2 then none
    else
      let grand_mean := list_mean (subset.map Prod.snd)
      let ss_total := ss_total_from (subset.map Prod.snd) grand_mean
      if ss_total = 0 then some 0
      else some (ss_between_from groups grand_mean / ss_total)

/-- Claim C6: eta-squared is "not computable" (`none`) exactly when no
rows survive the null-drop or fewer than 2 non-empty groups exist; and
with at least 2 non-empty groups but a zero total sum of squares it is
exactly `some 0`, not `none`. -/
theorem eta_squared_none_iff_and_zero {α : Type} [DecidableEq α]
    (rows : List (Option α × Option ℚ)) :
    (compute_eta_squared rows = none ↔
      dropna rows = [] ∨ (nonempty_groups (dropna rows)).length < 2) ∧
      (dropna rows ≠ [] → 2 ≤ (nonempty_groups (dropna rows)).length →
        ss_total_from ((dropna rows).map Prod.snd)
            (list_mean ((dropna rows).map Prod.snd)) = 0 →
          compute_eta_squared rows = some 0) := by
  constructor
  · by_cases h1 : dropna rows = []
    · simp [compute_eta_squared, h1]
    · by_cases h2 : (nonempty_groups (dropna rows)).length < 2
      · simp [compute_eta_squared, h1, h2, List.isEmpty_iff]
      · by_cases h3 : ss_total_from ((dropna rows).map Prod.snd)
            (list_mean ((dropna rows).map Prod.snd)) = 0
        · simp [compute_eta_squared, h1, h2, h3, List.isEmpty_iff]
        · simp [compute_eta_squared, h1, h2, h3, List.isEmpty_iff]
  · intro h1 h2 h3
    simp [compute_eta_squared, h1, Nat.not_lt.mpr h2, h3, List.isEmpty_iff]

/-- Claim C6 witness: two rows with distinct keys and a constant
numerical value survive the drop, form 2 groups, have zero total sum of
squares, and produce eta-squared `some 0`. -/
theorem eta_squared_zero_witness :
    dropna [((some 0 : Option Nat), (some 5 : Option ℚ)), (some 1, some 5)] ≠ [] ∧
      2 ≤ (nonempty_groups (dropna
        [((some 0 : Option Nat), (some 5 : Option ℚ)), (some 1, some 5)])).length ∧
      compute_eta_squared
        [((some 0 : Option Nat), (some 5 : Option ℚ)), (some 1, some 5)] = some 0 := by
  refine ⟨?_, ?_, ?_⟩
  · simp [dropna]
  · simp [nonempty_groups, group_values, dropna]
  · refine (eta_squared_none_iff_and_zero _).2 (by simp [dropna])
      (by simp [nonempty_groups, group_values, dropna]) ?_
    have hd : dropna [((some 0 : Option Nat), (some 5 : Option ℚ)), (some 1, some 5)] =
        [(0, 5), (1, 5)] := rfl
    rw [hd]
    norm_num [ss_total_from, list_mean]

/-! ### Arithmetic facts behind the eta-squared range bound -/

theorem two_mul_sum_le (x : ℚ) (t : List ℚ) :
    2 * x * t.sum ≤ t.length * x ^ 2 + (t.map fun y => y ^ 2).sum := by
  induction t with
  | nil => simp
  | cons y t ih =>
    simp only [List.sum_cons, List.map_cons, List.length_cons]
    push_cast
    nlinarith [sq_nonneg (x - y), ih]

theorem sq_sum_le_length_mul_sum_sq (l : List ℚ) :
    l.sum ^ 2 ≤ l.length * (l.map fun y => y ^ 2).sum := by
  induction l with
  | nil => simp
  | cons x t ih =>
    simp only [List.sum_cons, List.map_cons, List.length_cons]
    push_cast
    nlinarith [two_mul_sum_le x t, ih,
      List.sum_nonneg (l := t.map fun y => y ^ 2) (by
        intro z hz
        obtain ⟨y, _, rfl⟩ := List.mem_map.mp hz
        positivity)]

theorem sum_sq_sub_expand (l : List ℚ) (m : ℚ) :
    (l.map fun x => (x - m) ^ 2).sum =
      (l.map fun x => x ^ 2).sum - 2 * m * l.sum + l.length * m ^ 2 := by
  induction l with
  | nil => simp
  | cons x t ih =>
    simp only [List.map_cons, List.sum_cons, List.length_cons]
    push_cast
    rw [ih]
    ring

theorem group_term_le (g : List ℚ) (m : ℚ) (hg : g ≠ []) :
    (g.length : ℚ) * (list_mean g - m) ^ 2 ≤ (g.map fun x => (x - m) ^ 2).sum := by
  have hn : (0 : ℚ) < g.length := by exact_mod_cast List.length_pos.mpr hg
  rw [sum_sq_sub_expand, list_mean]
  have expand : (g.length : ℚ) * (g.sum / g.length - m) ^ 2 =
      g.sum ^ 2 / g.length - 2 * m * g.sum + g.length * m ^ 2 := by
    field_simp
    ring
  rw [expand]
  have hdiv : g.sum ^ 2 / g.length ≤ (g.map fun y => y ^ 2).sum := by
    rw [div_le_iff₀ hn]
    calc g.sum ^ 2 ≤ g.length * (g.map fun y => y ^ 2).sum := sq_sum_le_length_mul_sum_sq g
      _ = (g.map fun y => y ^ 2).sum * g.length := by ring
  linarith

theorem sum_map_filter_split {β : Type} (l : List β) (p : β → Bool) (g : β → ℚ) :
    ((l.filter p).map g).sum + ((l.filter fun b => !p b).map g).sum = (l.map g).sum := by
  induction l with
  | nil => simp
  | cons b t ih =>
    cases hp : p b <;> simp [List.filter_cons, hp] <;> linarith [ih]

theorem sum_over_fibers {α : Type} [DecidableEq α] (G : α × ℚ → ℚ) :
    ∀ ks : List α, ks.Nodup → ∀ l : List (α × ℚ), (∀ p ∈ l, p.1 ∈ ks) →
      (ks.map fun k => ((l.filter fun p => p.1 = k).map G).sum).sum = (l.map G).sum := by
  intro ks
  induction ks with
  | nil =>
    intro _ l hcov
    have hl : l = [] := List.eq_nil_iff_forall_not_mem.mpr fun p hp => by
      simpa using hcov p hp
    simp [hl]
  | cons k ks ih =>
    intro hnd l hcov
    have hk : k ∉ ks := (List.nodup_cons.mp hnd).1
    have hnd2 : ks.Nodup := (List.nodup_cons.mp hnd).2
    simp only [List.map_cons, List.sum_cons]
    have hmap : (ks.map fun k2 => ((l.filter fun p => p.1 = k2).map G).sum) =
        ks.map fun k2 => (((l.filter fun p => !(decide (p.1 = k))).filter
          fun p => p.1 = k2).map G).sum := by
      apply List.map_congr_left
      intro k2 hk2
      rw [List.filter_filter]
      have : (l.filter fun p => p.1 = k2) =
          l.filter fun p => decide (p.1 = k2) && !(decide (p.1 = k)) := by
        apply List.filter_congr
        intro p _
        by_cases hp : p.1 = k2
        · have hne : ¬k2 = k := fun hc => hk (hc ▸ hk2)
          simp [hp, hne]
        · simp [hp]
      rw [this]
    rw [hmap, ih hnd2 (l.filter fun p => !(decide (p.1 = k))) ?cov]
    · exact sum_map_filter_split l (fun p => decide (p.1 = k)) G
    case cov =>
      intro p hp
      have hp1 := List.mem_filter.mp hp
      rcases List.mem_cons.mp (hcov p hp1.1) with h | h
      · exfalso
        have := hp1.2
        simp [h] at this
      · exact h

theorem group_values_ne_nil {α : Type} [DecidableEq α] (subset : List (α × ℚ)) :
    ∀ g ∈ group_values subset, g ≠ [] := by
  intro g hg
  simp only [group_values, List.mem_map] at hg
  obtain ⟨k, hk, rfl⟩ := hg
  rw [List.mem_dedup] at hk
  obtain ⟨p, hp, hpk⟩ := List.mem_map.mp hk
  intro hnil
  rw [List.map_eq_nil_iff] at hnil
  have : p ∈ subset.filter fun q => q.1 = k := List.mem_filter.mpr ⟨hp, by simp [hpk]⟩
  rw [hnil] at this
  exact List.not_mem_nil p this

theorem nonempty_groups_eq_group_values {α : Type} [DecidableEq α]
    (subset : List (α × ℚ)) : nonempty_groups subset = group_values subset := by
  apply List.filter_eq_self.mpr
  intro g hg
  simpa using List.length_pos.mpr (group_values_ne_nil subset g hg)

theorem ss_between_le_ss_total {α : Type} [DecidableEq α]
    (subset : List (α × ℚ)) (m : ℚ) :
    ss_between_from (group_values subset) m ≤ ss_total_from (subset.map Prod.snd) m := by
  have h1 : ss_between_from (group_values subset) m ≤
      ((group_values subset).map fun g => (g.map fun x => (x - m) ^ 2).sum).sum := by
    apply List.sum_le_sum
    intro g hg
    exact group_term_le g m (group_values_ne_nil subset g hg)
  have h2 : ((group_values subset).map fun g => (g.map fun x => (x - m) ^ 2).sum).sum =
      ss_total_from (subset.map Prod.snd) m := by
    have hfib := sum_over_fibers (fun p => (p.2 - m) ^ 2) (subset.map Prod.fst).dedup
      (List.nodup_dedup _) subset
      (fun p hp => List.mem_dedup.mpr (List.mem_map_of_mem _ hp))
    rw [group_values, List.map_map, ss_total_from, List.map_map]
    have e1 : ((fun g => (List.map (fun x => (x - m) ^ 2) g).sum) ∘
        fun k => List.map Prod.snd (List.filter (fun p => decide (p.1 = k)) subset)) =
        fun k => (List.map (fun p => (p.2 - m) ^ 2)
          (List.filter (fun p => decide (p.1 = k)) subset)).sum := by
      funext k
      simp [Function.comp_def, List.map_map]
    have e2 : ((fun x => (x - m) ^ 2) ∘ Prod.snd : α × ℚ → ℚ) =
        fun p => (p.2 - m) ^ 2 := rfl
    rw [e1, e2]
    exact hfib
  exact h1.trans (le_of_eq h2)

theorem ss_between_nonneg (groups : List (List ℚ)) (m : ℚ) :
    0 ≤ ss_between_from groups m := by
  apply List.sum_nonneg
  intro x hx
  obtain ⟨g, _, rfl⟩ := List.mem_map.mp hx
  positivity

theorem ss_total_nonneg (nums : List ℚ) (m : ℚ) : 0 ≤ ss_total_from nums m := by
  apply List.sum_nonneg
  intro x hx
  obtain ⟨y, _, rfl⟩ := List.mem_map.mp hx
  positivity

/-- Claim C7: whenever the eta-squared computation returns a value, that
value lies in the closed interval [0, 1] — the between-group sum of
squares never exceeds the total sum of squares. -/
theorem eta_squared_mem_unit_interval {α : Type} [DecidableEq α]
    (rows : List (Option α × Option ℚ)) (q : ℚ)
    (h : compute_eta_squared rows = some q) : 0 ≤ q ∧ q ≤ 1 := by
  simp only [compute_eta_squared] at h
  split_ifs at h with h1 h2 h3
  · rw [Option.some_inj] at h
    subst h
    norm_num
  · rw [Option.some_inj] at h
    subst h
    have hnums := ss_total_nonneg ((dropna rows).map Prod.snd)
      (list_mean ((dropna rows).map Prod.snd))
    have hpos : 0 < ss_total_from ((dropna rows).map Prod.snd)
        (list_mean ((dropna rows).map Prod.snd)) := lt_of_le_of_ne hnums (Ne.symm h3)
    constructor
    · exact div_nonneg (ss_between_nonneg _ _) hnums
    · rw [div_le_one hpos, nonempty_groups_eq_group_values]
      exact ss_between_le_ss_total (dropna rows) _

/-- Claim C7 witness: two singleton groups with values 0 and 1 give
eta-squared `some 1`, which lies in [0, 1]. -/
theorem eta_squared_mem_unit_interval_witness :
    compute_eta_squared [((some 0 : Option Nat), (some 0 : Option ℚ)), (some 1, some 1)] =
        some 1 ∧ (0 : ℚ) ≤ 1 ∧ (1 : ℚ) ≤ 1 := by
  have hval : compute_eta_squared
      [((some 0 : Option Nat), (some 0 : Option ℚ)), (some 1, some 1)] = some 1 := by
    have hd : dropna [((some 0 : Option Nat), (some 0 : Option ℚ)), (some 1, some 1)] =
        [(0, 0), (1, 1)] := rfl
    have hg : nonempty_groups [((0 : Nat), (0 : ℚ)), (1, 1)] = [[0], [1]] := rfl
    simp only [compute_eta_squared, hd, hg]
    norm_num [list_mean, ss_total_from, ss_between_from]
  exact ⟨hval, eta_squared_mem_unit_interval _ 1 hval⟩

/-! ## Scatter-pair ranking (src/modules/bivariate_plots.py,
`_rank_scatter_pairs`)

The correlation matrix `df[numerical_cols].corr()` is modelled as an
oracle on column indices; a `none` entry models a NaN (pandas leaves a
correlation NaN when fewer than 2 overlapping non-null values exist,
making the statistic undefined). -/

/-- Embedding of `itertools.combinations(range(n), 2)`. -/
def combinations2 (n : Nat) : List (Nat × Nat) :=
  (List.range n).flatMap fun i =>
    ((List.range n).filter fun j => i < j).map fun j => (i, j)

theorem mem_combinations2 (n i j : Nat) :
    (i, j) ∈ combinations2 n ↔ i < j ∧ j < n := by
  simp only [combinations2, List.mem_flatMap, List.mem_map, List.mem_filter,
    List.mem_range, Prod.mk.injEq, decide_eq_true_eq]
  constructor
  · rintro ⟨a, ha, b, ⟨hb, hab⟩, h1, h2⟩
    omega
  · rintro ⟨hij, hjn⟩
    exact ⟨i, by omega, j, ⟨hjn, hij⟩, rfl, rfl⟩

/-- Embedding of `_rank_scatter_pairs(corr, numerical_cols)`: collect
the index pairs whose correlation entry is defined with absolute value
at least `MIN_CORRELATION_THRESHOLD`, then sort by absolute
correlation, descending. -/
def rank_scatter_pairs (corr : Option (Nat → Nat → Option ℚ))
    (numerical_cols : List String) : List (String × String × ℚ) :=
  match corr with
  | none => []
  | some m =>
    if numerical_cols.length < 2 then []
    else
      let pairs := (combinations2 numerical_cols.length).filterMap fun ij =>
        match m ij.1 ij.2 with
        | none => none
        | some r =>
          if MIN_CORRELATION_THRESHOLD ≤ |r| then
            some (numerical_cols.getD ij.1 (""), numerical_cols.getD ij.2 (""), r)
          else none
      pairs.mergeSort fun a b => decide (|b.2.2| ≤ |a.2.2|)

/-- Claim C8: for every correlation matrix, the scatter candidate list
contains exactly the pairs of distinct numerical columns whose
correlation entry is defined with absolute value at least the 0.3
threshold, and the list is sorted by absolute correlation in
descending order. -/
theorem rank_scatter_pairs_spec (m : Nat → Nat → Option ℚ)
    (numerical_cols : List String) :
    (∀ t : String × String × ℚ,
      t ∈ rank_scatter_pairs (some m) numerical_cols ↔
        ∃ i j, i < j ∧ j < numerical_cols.length ∧ m i j = some t.2.2 ∧
          MIN_CORRELATION_THRESHOLD ≤ |t.2.2| ∧
          t.1 = numerical_cols.getD i ("") ∧ t.2.1 = numerical_cols.getD j ("")) ∧
      List.Sorted (fun a b : String × String × ℚ => |b.2.2| ≤ |a.2.2|)
        (rank_scatter_pairs (some m) numerical_cols) := by
  by_cases hlen : numerical_cols.length < 2
  · constructor
    · intro t
      simp only [rank_scatter_pairs, if_pos hlen]
      simp only [List.not_mem_nil, false_iff]
      rintro ⟨i, j, hij, hjn, -⟩
      omega
    · simp only [rank_scatter_pairs, if_pos hlen]
      exact List.sorted_nil
  · constructor
    · intro t
      obtain ⟨t1, t2, t3⟩ := t
      simp only [rank_scatter_pairs, if_neg hlen]
      rw [List.mem_mergeSort, List.mem_filterMap]
      constructor
      · rintro ⟨⟨i, j⟩, hij, hf⟩
        rw [mem_combinations2] at hij
        split at hf
        · cases hf
        · rename_i r heq
          split at hf
          · rename_i hr
            rw [Option.some_inj, Prod.mk.injEq, Prod.mk.injEq] at hf
            obtain ⟨e1, e2, e3⟩ := hf
            subst e3
            exact ⟨i, j, hij.1, hij.2, heq, hr, e1.symm, e2.symm⟩
          · cases hf
      · rintro ⟨i, j, hij, hjn, hm, hr, h1, h2⟩
        refine ⟨(i, j), (mem_combinations2 _ _ _).mpr ⟨hij, hjn⟩, ?_⟩
        simp [hm, hr, h1, h2]
    · simp only [rank_scatter_pairs, if_neg hlen]
      refine List.Pairwise.imp (fun hab => of_decide_eq_true hab)
        (List.sorted_mergeSort ?_ ?_ _)
      · intro a b c hab hbc
        rw [decide_eq_true_eq] at *
        exact le_trans hbc hab
      · intro a b
        simp only [Bool.or_eq_true, decide_eq_true_eq]
        exact le_total _ _

/-! ## Bivariate plot selection (src/modules/bivariate_plots.py,
`generate_bivariate_plots` and `_rank_grouped_bar_pairs`) -/

/-- The data a DataFrame supplies to the bivariate module: the entries
of `df[numerical_cols].corr()` (indexed by positions in
`numerical_cols`, `none` = NaN) and, for each (categorical, numerical)
column pair, the rows `df[[cat_col, num_col]]` consumed by
`_compute_eta_squared`. -/
structure BiData where
  corrEntry : Nat → Nat → Option ℚ
  pairRows : String → String → List (Option String × Option ℚ)

/-- Embedding of `_rank_grouped_bar_pairs(df, categorical_cols,
numerical_cols)`: every (categorical, numerical) pair with a computable
eta-squared, sorted by eta-squared descending. -/
def rank_grouped_bar_pairs (d : BiData)
    (categorical_cols numerical_cols : List String) : List (String × String × ℚ) :=
  if categorical_cols.isEmpty || numerical_cols.isEmpty then []
  else
    let pairs := categorical_cols.flatMap fun cat_col =>
      numerical_cols.filterMap fun num_col =>
        match compute_eta_squared (d.pairRows cat_col num_col) with
        | none => none
        | some eta_sq => some (cat_col, num_col, eta_sq)
    pairs.mergeSort fun a b => decide (b.2.2 ≤ a.2.2)

/-- The kind tag of a produced plot (`PlotResult.plot_type`). -/
inductive PlotKind where
  | heatmap
  | scatter
  | grouped_bar
deriving DecidableEq, Repr

/-- Embedding of `PlotResult` at the granularity the claims read: the
plot kind and the columns it draws (figure, title and description are
rendering artifacts outside the verified core). -/
structure PlotResult where
  kind : PlotKind
  column_names : List String
deriving DecidableEq, Repr

/-- Embedding of the scatter/grouped-bar slot split inside
`generate_bivariate_plots` (the `n_scatter`/`n_bar` if-chain). -/
def bivariate_counts (n_scatter_available n_bar_available
    max_scatter max_bar remaining : Nat) : Nat × Nat :=
  if n_scatter_available + n_bar_available ≤ remaining then
    (n_scatter_available, n_bar_available)
  else if n_scatter_available < max_scatter then
    (n_scatter_available, min n_bar_available (remaining - n_scatter_available))
  else if n_bar_available < max_bar then
    (min n_scatter_available (remaining - n_bar_available), n_bar_available)
  else
    let n_scatter := min n_scatter_available (remaining / 2)
    (n_scatter, min n_bar_available (remaining - n_scatter))

theorem bivariate_counts_le (s b ms mb r : Nat) (hs : s ≤ r) (hb : b ≤ r) :
    (bivariate_counts s b ms mb r).1 + (bivariate_counts s b ms mb r).2 ≤ r := by
  simp only [bivariate_counts]
  split_ifs <;> simp <;> omega

/-- Embedding of `generate_bivariate_plots(df, schema_info)`: an
unconditional empty result without numerical columns, else a heatmap
slot (iff at least 2 numerical columns), then correlation-ranked
scatter plots, then eta-squared-ranked grouped bar charts, within the
remaining budget. -/
def generate_bivariate_plots (d : BiData)
    (numerical_cols categorical_cols : List String) : List PlotResult :=
  if numerical_cols.length = 0 then []
  else
    let heat : List PlotResult :=
      if 2 ≤ numerical_cols.length then [⟨PlotKind.heatmap, numerical_cols⟩] else []
    let remaining := MAX_BIVARIATE_PLOTS - heat.length
    let corr : Option (Nat → Nat → Option ℚ) :=
      if 2 ≤ numerical_cols.length then some d.corrEntry else none
    let max_scatter := min 4 remaining
    let max_bar := min 4 remaining
    let scatter_candidates := rank_scatter_pairs corr numerical_cols
    let bar_candidates := rank_grouped_bar_pairs d categorical_cols numerical_cols
    let n_scatter_available := min scatter_candidates.length max_scatter
    let n_bar_available := min bar_candidates.length max_bar
    let counts := bivariate_counts n_scatter_available n_bar_available
      max_scatter max_bar remaining
    heat ++
      ((scatter_candidates.take counts.1).map fun p =>
        ⟨PlotKind.scatter, [p.1, p.2.1]⟩) ++
      ((bar_candidates.take counts.2).map fun p =>
        ⟨PlotKind.grouped_bar, [p.1, p.2.1]⟩)

/-- Claim C9: for every dataset and schema, the bivariate plot list
splits as heatmap entries, then scatter entries, then grouped-bar
entries; there is at most one heatmap entry, present exactly when at
least 2 numerical columns exist (hence, when present, it is the first
element); and the total length is at most `MAX_BIVARIATE_PLOTS = 9`. -/
theorem generate_bivariate_structure (d : BiData)
    (numerical_cols categorical_cols : List String) :
    ∃ hs ss bs : List PlotResult,
      generate_bivariate_plots d numerical_cols categorical_cols = hs ++ ss ++ bs ∧
      (∀ p ∈ hs, p.kind = PlotKind.heatmap) ∧
      (∀ p ∈ ss, p.kind = PlotKind.scatter) ∧
      (∀ p ∈ bs, p.kind = PlotKind.grouped_bar) ∧
      hs.length ≤ 1 ∧
      (hs ≠ [] ↔ 2 ≤ numerical_cols.length) ∧
      hs.length + ss.length + bs.length ≤ MAX_BIVARIATE_PLOTS := by
  by_cases h0 : numerical_cols.length = 0
  · refine ⟨[], [], [], ?_, ?_, ?_, ?_, ?_, ?_, ?_⟩
    · simp [generate_bivariate_plots, h0]
    · simp
    · simp
    · simp
    · simp
    · constructor
      · intro hc
        exact absurd rfl hc
      · intro hc
        omega
    · simp [MAX_BIVARIATE_PLOTS]
  · simp only [generate_bivariate_plots, if_neg h0]
    by_cases h2 : 2 ≤ numerical_cols.length
    · simp only [if_pos h2]
      refine ⟨_, _, _, rfl, ?_, ?_, ?_, ?_, ?_, ?_⟩
      · intro p hp
        simp only [List.mem_singleton] at hp
        rw [hp]
      · intro p hp
        obtain ⟨q, -, rfl⟩ := List.mem_map.mp hp
        rfl
      · intro p hp
        obtain ⟨q, -, rfl⟩ := List.mem_map.mp hp
        rfl
      · simp
      · simp [h2]
      · simp only [List.length_cons, List.length_nil, List.length_map, List.length_take,
          MAX_BIVARIATE_PLOTS]
        generalize (rank_scatter_pairs (some d.corrEntry) numerical_cols).length = sl
        generalize (rank_grouped_bar_pairs d categorical_cols numerical_cols).length = bl
        have key := bivariate_counts_le (min sl (min 4 (9 - (0 + 1))))
          (min bl (min 4 (9 - (0 + 1)))) (min 4 (9 - (0 + 1))) (min 4 (9 - (0 + 1)))
          (9 - (0 + 1)) (by omega) (by omega)
        omega
    · simp only [if_neg h2]
      refine ⟨_, _, _, rfl, ?_, ?_, ?_, ?_, ?_, ?_⟩
      · intro p hp
        simp at hp
      · intro p hp
        obtain ⟨q, -, rfl⟩ := List.mem_map.mp hp
        rfl
      · intro p hp
        obtain ⟨q, -, rfl⟩ := List.mem_map.mp hp
        rfl
      · simp
      · simp [h2]
      · simp only [List.length_nil, List.length_map, List.length_take,
          MAX_BIVARIATE_PLOTS]
        generalize (rank_scatter_pairs none numerical_cols).length = sl
        generalize (rank_grouped_bar_pairs d categorical_cols numerical_cols).length = bl
        have key := bivariate_counts_le (min sl (min 4 (9 - 0)))
          (min bl (min 4 (9 - 0))) (min 4 (9 - 0)) (min 4 (9 - 0))
          (9 - 0) (by omega) (by omega)
        omega

/-- Claim C10: with no numerical columns the bivariate generator
returns the empty list — no grouped-bar (or any other) plots are
produced even when categorical columns exist. -/
theorem generate_bivariate_no_numerical (d : BiData)
    (categorical_cols : List String) :
    generate_bivariate_plots d [] categorical_cols = [] := rfl

end Dashboard
